import Mathlib

/-!
Verification of the micro-TFLite cross-compilation pipeline specification
against the repository source (`tutorials/micro/micro_tflite.py`).

The tutorial file orchestrates external components (Model Reader, Graph
Builder, Code Generator, Device Session); those components are not part of
the repository source tree, so they are modelled here faithfully from the
specification's component contracts (sections 4.1 to 4.4 and 7), while the
tutorial's own constants and control flow (model loading branches, input
bindings) are embedded directly from the source file.
-/

namespace MicroTFLite

/-- Error taxonomy of the pipeline core, from spec section 7
(pipeline-stage errors: parsing, lowering, codegen). -/
inductive Err where
  | MalformedModel : Err
  | UnsupportedOperator : Nat → Err
  | ShapeMismatch : Err
  | CyclicGraph : Err
  | ShapeInferenceError : String → Err
  | UnknownTarget : Err
deriving DecidableEq, Repr

/-- Element types of tensors, spec section 3: a small fixed set. -/
inductive DType where
  | float32 : DType
  | int8 : DType
  | int32 : DType
  | uint8 : DType
deriving DecidableEq, Repr

/-- Operator kinds, spec section 3: a closed set fixed per build. -/
inductive OpKind where
  | FullyConnected : OpKind
  | Add : OpKind
  | Relu : OpKind
  | Reshape : OpKind
deriving DecidableEq, Repr

/-- Modelled from the spec: the Model Reader's mapping from serialized
opcodes to operator kinds (spec section 4.1).  The numeric codes follow the
TFLite builtin-operator numbering that the tutorial's model format uses
(ADD = 0, FULLY_CONNECTED = 9, RELU = 19, RESHAPE = 22); every other code,
such as 114, has no known mapping. -/
def opcodeKind : Nat → Option OpKind
  | 0 => some OpKind.Add
  | 9 => some OpKind.FullyConnected
  | 19 => some OpKind.Relu
  | 22 => some OpKind.Reshape
  | _ => none

/-- A serialized operator entry in the model buffer: opcode plus tensor
references (spec sections 3 and 4.1). -/
structure RawOp where
  opcode : Nat
  inputs : List String
  outputs : List String
deriving DecidableEq, Repr

/-- Tensor descriptor: name, shape, element type (spec section 3).  The
optional weight payload is carried as raw bytes. -/
structure TensorDescriptor where
  name : String
  shape : List Nat
  dtype : DType
  weights : Option (List Nat)
deriving DecidableEq, Repr

/-- Modelled from the spec: the decoded view of a flatbuffer model byte
buffer the Model Reader walks (spec sections 4.1 and 6): a magic/version
header, tensor table, operator list in stored order, and the declared
graph inputs/outputs. -/
structure ModelBuffer where
  magic : Nat
  version : Nat
  tensors : List TensorDescriptor
  ops : List RawOp
  graphInputs : List String
  graphOutputs : List String
deriving DecidableEq, Repr

/-- The fixed magic of the model format header ("TFL3" as a little-endian
word), spec section 4.1. -/
def tfliteMagic : Nat := 0x334C4654

/-- A typed operator node of the IR (spec section 3). -/
structure OperatorNode where
  kind : OpKind
  inputs : List String
  outputs : List String
deriving DecidableEq, Repr

/-- The intermediate representation graph (spec section 3): ordered
operator sequence, tensor table, designated inputs and outputs. -/
structure IRGraph where
  ops : List OperatorNode
  tensors : List TensorDescriptor
  graphInputs : List String
  graphOutputs : List String
deriving DecidableEq, Repr

/-- Modelled from the spec: the Model Reader's walk of the operator list in
stored order (spec section 4.1), mapping each serialized opcode to an
operator kind and failing with `UnsupportedOperator code` at the first
opcode with no known mapping. -/
def mapOps : List RawOp → Except Err (List OperatorNode)
  | [] => Except.ok []
  | r :: rest =>
    match opcodeKind r.opcode with
    | none => Except.error (Err.UnsupportedOperator r.opcode)
    | some k =>
      match mapOps rest with
      | Except.ok tl => Except.ok (OperatorNode.mk k r.inputs r.outputs :: tl)
      | Except.error e => Except.error e

/-- Modelled from the spec: `parse(buffer) -> IRGraph | Error`
(spec section 4.1).  Validates the magic/version header (failing with
`MalformedModel`), then walks the operator list; shapes and weights are
copied into owned tensor descriptors.  Total, hence never crashes: every
failure is a returned `Err` value. -/
def parse (buf : ModelBuffer) : Except Err IRGraph :=
  if buf.magic = tfliteMagic ∧ buf.version = 3 then
    match mapOps buf.ops with
    | Except.error e => Except.error e
    | Except.ok ops =>
        Except.ok (IRGraph.mk ops buf.tensors buf.graphInputs buf.graphOutputs)
  else Except.error Err.MalformedModel

/-- Availability check: every input of the operator is already available
(produced earlier or a declared graph input). -/
def opReady (av : List String) (op : OperatorNode) : Bool :=
  op.inputs.all (fun i => av.contains i)

/-- Forward-order validity of an operator sequence (spec section 3 DAG
invariant): each operator's inputs are declared graph inputs or outputs of
an earlier operator in the sequence. -/
def validForward (av : List String) : List OperatorNode → Bool
  | [] => true
  | op :: rest => opReady av op && validForward (av ++ op.outputs) rest

/-- Modelled from the spec: one selection step of the topological check
(spec section 4.2): find the first pending operator whose inputs are all
available, returning it together with the remaining pending operators. -/
def pickReady (av : List String) : List OperatorNode →
    Option (OperatorNode × List OperatorNode)
  | [] => none
  | op :: rest =>
    if opReady av op then some (op, rest)
    else
      match pickReady av rest with
      | some (p, rest2) => some (p, op :: rest2)
      | none => none

/-- Modelled from the spec: the fuelled worklist loop of the topological
check (spec section 4.2): repeatedly emit a ready operator; if pending
operators remain but none is ready, fail with `CyclicGraph`. -/
def topoAux : Nat → List String → List OperatorNode → List OperatorNode →
    Except Err (List OperatorNode)
  | _, _, [], acc => Except.ok acc.reverse
  | 0, _, _ :: _, _ => Except.error Err.CyclicGraph
  | fuel + 1, av, op :: pending, acc =>
    match pickReady av (op :: pending) with
    | none => Except.error Err.CyclicGraph
    | some (p, rest) => topoAux fuel (av ++ p.outputs) rest (p :: acc)

/-- Modelled from the spec: the Graph Builder's topological check of the
operator list against the declared graph inputs (spec section 4.2): either
a valid forward order of all the operators, or `CyclicGraph`. -/
def topoCheck (gInputs : List String) (ops : List OperatorNode) :
    Except Err (List OperatorNode) :=
  topoAux ops.length gInputs ops []

/-- Buffer roles in a generated artifact's manifest (spec section 3). -/
inductive BufRole where
  | input : BufRole
  | output : BufRole
  | intermediate : BufRole
deriving DecidableEq, Repr

/-- A manifest entry: buffer name, byte size and role (spec section 3). -/
structure BufSpec where
  name : String
  size : Nat
  role : BufRole
deriving DecidableEq, Repr

/-- Byte size of one element of each element type. -/
def elemSize : DType → Nat
  | DType.float32 => 4
  | DType.int8 => 1
  | DType.int32 => 4
  | DType.uint8 => 1

/-- Byte size of a tensor: product of its shape times the element size. -/
def tensorSize (t : TensorDescriptor) : Nat :=
  t.shape.foldl (fun a b => a * b) 1 * elemSize t.dtype

/-- Role of a named buffer within a graph: declared input, declared output,
otherwise intermediate. -/
def roleOf (g : IRGraph) (n : String) : BufRole :=
  if g.graphInputs.contains n then BufRole.input
  else if g.graphOutputs.contains n then BufRole.output
  else BufRole.intermediate

/-- Modelled from the spec: the manifest of required buffers emitted with
the generated source (spec sections 3 and 4.3). -/
def buildManifest (g : IRGraph) : List BufSpec :=
  g.tensors.map (fun t => BufSpec.mk t.name (tensorSize t) (roleOf g t.name))

/-- C identifier stem of each operator kind, used in emitted source. -/
def kindName : OpKind → String
  | OpKind.FullyConnected => "fully_connected"
  | OpKind.Add => "add"
  | OpKind.Relu => "relu"
  | OpKind.Reshape => "reshape"

/-- One emitted call line of the entry point, threading the buffer array
through operator `i`. -/
def emitOpLine (i : Nat) (op : OperatorNode) : String :=
  "  op_" ++ kindName op.kind ++ "_" ++ toString i ++ "(buffers);\n"

/-- Modelled from the spec: emission of the portable C-like source with the
fixed entry point signature (spec sections 4.3 and 6), one call per
operator in stored order. -/
def emitSource (g : IRGraph) (target : String) : String :=
  "// target: " ++ target ++ "\n" ++
  "int run(void** buffers) \x7b\n" ++
  String.join (g.ops.enum.map (fun p => emitOpLine p.1 p.2)) ++
  "  return 0;\n\x7d\n"

/-- The target identifiers known to the code generator (spec section 4.3:
a generic C kernel set and a vectorized kernel set). -/
def knownTargets : List String := ["generic-c", "cmsis-nn"]

/-- A generated artifact: source text plus buffer manifest, immutable once
produced (spec section 3). -/
structure GeneratedArtifact where
  source : String
  manifest : List BufSpec
deriving DecidableEq, Repr

/-- Modelled from the spec: `generate(graph, target) -> GeneratedArtifact |
Error` (spec section 4.3); unknown target identifiers fail with
`UnknownTarget`.  A pure function of its two arguments. -/
def generate (g : IRGraph) (target : String) : Except Err GeneratedArtifact :=
  if knownTargets.contains target then
    Except.ok (GeneratedArtifact.mk (emitSource g target) (buildManifest g))
  else Except.error Err.UnknownTarget

/-- States of the device session lifecycle (spec section 4.4). -/
inductive SessState where
  | Disconnected : SessState
  | Connecting : SessState
  | Ready : SessState
  | Running : SessState
deriving DecidableEq, Repr

/-- Session-level errors (spec sections 4.4 and 7), each carrying its
human-readable detail string. -/
inductive SessErr where
  | ConnectError : String → SessErr
  | Timeout : String → SessErr
  | BuildError : String → SessErr
  | ExecutionFault : String → SessErr
  | SessionBusy : String → SessErr
  | UnknownBuffer : String → SessErr
  | SizeMismatch : String → SessErr
  | StateError : String → SessErr
deriving DecidableEq, Repr

/-- The detail string carried by a session error (spec section 7: every
failure surfaces a stable error kind plus a human-readable detail). -/
def errDetail : SessErr → String
  | SessErr.ConnectError d => d
  | SessErr.Timeout d => d
  | SessErr.BuildError d => d
  | SessErr.ExecutionFault d => d
  | SessErr.SessionBusy d => d
  | SessErr.UnknownBuffer d => d
  | SessErr.SizeMismatch d => d
  | SessErr.StateError d => d

/-- Transport-layer errors (spec section 7): those that force the session
to `Disconnected`. -/
def isTransportErr : SessErr → Bool
  | SessErr.ConnectError _ => true
  | SessErr.Timeout _ => true
  | SessErr.BuildError _ => true
  | SessErr.ExecutionFault _ => true
  | _ => false

/-- Modelled from the spec: the device session state (spec section 3):
lifecycle state, manifest of the uploaded artifact, retrieved output
buffers, and whether the last `run` completed successfully. -/
structure Session where
  state : SessState
  manifest : List BufSpec
  outputs : List (String × List Nat)
  lastRunOk : Bool
deriving DecidableEq, Repr

/-- The fully torn-down session: transport closed, all device-side buffers
released (spec section 4.4 `close`). -/
def closedSession : Session :=
  Session.mk SessState.Disconnected [] [] false

/-- Environment-determined outcome of the `connect` transport operation. -/
inductive ConnectOutcome where
  | accepted : ConnectOutcome
  | refused : ConnectOutcome
  | timedOut : ConnectOutcome
deriving DecidableEq, Repr

/-- Environment-determined outcome of the on-target build during `upload`. -/
inductive UploadOutcome where
  | built : UploadOutcome
  | buildFail : String → UploadOutcome
deriving DecidableEq, Repr

/-- Environment-determined outcome of a `run` transport operation. -/
inductive RunOutcome where
  | completed : List (String × List Nat) → RunOutcome
  | trap : RunOutcome
  | timedOut : RunOutcome
deriving DecidableEq, Repr

/-- A session operation invocation, carrying the environment outcome where
real transport input/output occurs (spec section 5 suspension points). -/
inductive Act where
  | connect : ConnectOutcome → Act
  | upload : GeneratedArtifact → UploadOutcome → Act
  | setInput : String → List Nat → Act
  | run : RunOutcome → Act
  | getOutput : String → Act
  | close : Act
deriving DecidableEq, Repr

/-- The valid source state of each operation (spec section 4.4): `connect`
only from `Disconnected`; `upload`, `setInput`, `run`, `getOutput` only
from `Ready`; `close` from any state. -/
def validSrc : Act → SessState → Bool
  | Act.connect _, s => s == SessState.Disconnected
  | Act.upload _ _, s => s == SessState.Ready
  | Act.setInput _ _, s => s == SessState.Ready
  | Act.run _, s => s == SessState.Ready
  | Act.getOutput _, s => s == SessState.Ready
  | Act.close, _ => true

/-- Find the manifest entry of a named input buffer. -/
def findInput (manifest : List BufSpec) (n : String) : Option BufSpec :=
  manifest.find? (fun b => b.name == n && b.role == BufRole.input)

/-- Find the bytes of a named retrieved output buffer. -/
def findOutputBytes (outs : List (String × List Nat)) (n : String) :
    Option (List Nat) :=
  match outs.find? (fun p => p.1 == n) with
  | some p => some p.2
  | none => none

/-- Modelled from the spec: one step of the device session state machine
(spec section 4.4).  Every operation invoked outside its valid source state
returns a state error and leaves the session unchanged; transport-layer
failures (`ConnectError`, `Timeout`, `BuildError`, `ExecutionFault`) force
the session to `Disconnected`, releasing device-side state; `run` while a
run is in flight fails with `SessionBusy` without touching the session;
`getOutput` succeeds only after a successful `run`. -/
def step (s : Session) : Act → Session × Except SessErr (Option (List Nat))
  | Act.connect o =>
    if s.state == SessState.Disconnected then
      match o with
      | ConnectOutcome.accepted =>
          (Session.mk SessState.Ready s.manifest s.outputs s.lastRunOk,
            Except.ok none)
      | ConnectOutcome.refused =>
          (closedSession, Except.error (SessErr.ConnectError "connection refused"))
      | ConnectOutcome.timedOut =>
          (closedSession, Except.error (SessErr.Timeout "connect timed out"))
    else (s, Except.error (SessErr.StateError "connect: session not Disconnected"))
  | Act.upload art o =>
    if s.state == SessState.Ready then
      match o with
      | UploadOutcome.built =>
          (Session.mk SessState.Ready art.manifest s.outputs s.lastRunOk,
            Except.ok none)
      | UploadOutcome.buildFail d =>
          (closedSession, Except.error (SessErr.BuildError d))
    else (s, Except.error (SessErr.StateError "upload: session not Ready"))
  | Act.setInput n data =>
    if s.state == SessState.Ready then
      match findInput s.manifest n with
      | none => (s, Except.error (SessErr.UnknownBuffer n))
      | some b =>
        if data.length == b.size then (s, Except.ok none)
        else
          (s, Except.error (SessErr.SizeMismatch
            ("setInput " ++ n ++ ": byte length disagrees with manifest")))
    else (s, Except.error (SessErr.StateError "setInput: session not Ready"))
  | Act.run o =>
    match s.state with
    | SessState.Running =>
        (s, Except.error (SessErr.SessionBusy "a run is already in flight"))
    | SessState.Ready =>
      match o with
      | RunOutcome.completed outs =>
          (Session.mk SessState.Ready s.manifest outs true, Except.ok none)
      | RunOutcome.trap =>
          (closedSession,
            Except.error (SessErr.ExecutionFault "target reported a runtime trap"))
      | RunOutcome.timedOut =>
          (closedSession, Except.error (SessErr.Timeout "run timed out"))
    | _ => (s, Except.error (SessErr.StateError "run: session not Ready"))
  | Act.getOutput n =>
    if s.state == SessState.Ready && s.lastRunOk then
      match findOutputBytes s.outputs n with
      | some bs => (s, Except.ok (some bs))
      | none => (s, Except.error (SessErr.UnknownBuffer n))
    else
      (s, Except.error (SessErr.StateError "getOutput: no successful run to read"))
  | Act.close => (closedSession, Except.ok none)

/-- Run a body of session operations, aborting at the first error (the
error-exit path of a scoped block). -/
def runBody (s : Session) : List Act → Session
  | [] => s
  | a :: rest =>
    match step s a with
    | (s2, Except.ok _) => runBody s2 rest
    | (s2, Except.error _) => s2

/-- Scoped acquisition of a device session (spec section 9): run the body
from a fresh session, then unconditionally `close`, on normal and error
exit paths alike. -/
def withSession (acts : List Act) : Session :=
  (step (runBody closedSession acts) Act.close).1

/-- The flatbuffer root model view: the buffer it was constructed from and
the offset the root object was read at. -/
structure TFLRootModel where
  modelBuf : List Nat
  offset : Nat
deriving DecidableEq, Repr

/-- Modelled from the spec: the external tflite package's generated root
accessor `GetRootAsModel(buf, offset)` (spec section 6: root "Model" object
of the flatbuffer schema), constructing the root view over `buf` at
`offset`.  Both package layouts in the tutorial expose this same generated
accessor, under `tflite.Model` in the flat layout and `tflite.Model.Model`
in the generated-submodule layout. -/
def GetRootAsModel (buf : List Nat) (offset : Nat) : TFLRootModel :=
  TFLRootModel.mk buf offset

/-- Embedding of the tutorial's try-branch (src lines 119-122):
`tflite.Model.GetRootAsModel(tflite_model_buf, 0)`. -/
def loadModelFlat (buf : List Nat) : TFLRootModel :=
  GetRootAsModel buf 0

/-- Embedding of the tutorial's `AttributeError` fallback branch (src lines
123-126): `tflite.Model.Model.GetRootAsModel(tflite_model_buf, 0)`. -/
def loadModelFallback (buf : List Nat) : TFLRootModel :=
  GetRootAsModel buf 0

/-- Embedding of the tutorial's try/except model loading (src lines
119-126): use the flat-layout accessor when the attribute exists, the
generated-layout accessor otherwise. -/
def loadModel (flatLayout : Bool) (buf : List Nat) : TFLRootModel :=
  if flatLayout then loadModelFlat buf else loadModelFallback buf

/-- Embedding of `input_tensor = "dense_4_input"` (src line 143). -/
def input_tensor : String := "dense_4_input"

/-- Embedding of `input_shape = (1,)` (src line 144). -/
def input_shape : List Nat := [1]

/-- Embedding of `input_dtype = "float32"` (src line 145). -/
def input_dtype : DType := DType.float32

/-- A host-side n-dimensional array value: flat data plus element type. -/
structure NDArray where
  data : List ℚ
  dtype : DType

/-- Shape of a one-dimensional host array: the length of its data. -/
def ndShape (a : NDArray) : List Nat := [a.data.length]

/-- Embedding of `np.array([0.5], dtype="float32")`, the tensor supplied at
inference time (src line 203). -/
def inferenceInput : NDArray := NDArray.mk [(1 : ℚ) / 2] DType.float32

/-- Embedding of the first argument of `mod.set_input(input_tensor, ...)`
(src line 203): the tutorial passes the very `input_tensor` variable used
at conversion time. -/
def setInputName : String := input_tensor

/-- Concrete buffer whose operator list holds the unimplemented opcode 114
noted in the tutorial (src lines 90-94). -/
def buf114 : ModelBuffer :=
  ModelBuffer.mk tfliteMagic 3 [] [RawOp.mk 114 [] []] [] []

/-- Concrete manifest declaring the input buffer "dense_4_input" of 4
bytes, matching the tutorial's float32 scalar input. -/
def demoManifest : List BufSpec :=
  [BufSpec.mk "dense_4_input" 4 BufRole.input]

/-- A connected session holding `demoManifest`. -/
def demoSession : Session :=
  Session.mk SessState.Ready demoManifest [] false

/-- A connected session with no manifest and no completed run. -/
def readySession : Session :=
  Session.mk SessState.Ready [] [] false

theorem mapOps_unsupported (ops : List RawOp)
    (h : ∃ r ∈ ops, opcodeKind r.opcode = none) :
    ∃ c, (∃ r ∈ ops, r.opcode = c ∧ opcodeKind c = none) ∧
      mapOps ops = Except.error (Err.UnsupportedOperator c) := by
  induction ops with
  | nil => rcases h with ⟨r, hr, _⟩; exact absurd hr (List.not_mem_nil r)
  | cons hd tl ih =>
    by_cases hhd : opcodeKind hd.opcode = none
    · refine ⟨hd.opcode, ⟨hd, List.mem_cons_self hd tl, rfl, hhd⟩, ?_⟩
      simp [mapOps, hhd]
    · have htl : ∃ r ∈ tl, opcodeKind r.opcode = none := by
        rcases h with ⟨r, hr, hnone⟩
        rcases List.mem_cons.mp hr with heq | hmem
        · exact absurd (heq ▸ hnone) hhd
        · exact ⟨r, hmem, hnone⟩
      rcases ih htl with ⟨c, hc, herr⟩
      refine ⟨c, ⟨?_, ?_⟩⟩
      · rcases hc with ⟨r, hmem, hrc⟩
        exact ⟨r, List.mem_cons_of_mem hd hmem, hrc⟩
      · rcases Option.ne_none_iff_exists.mp hhd with ⟨k, hk⟩
        simp [mapOps, ← hk, herr]

theorem pickReady_spec (av : List String) (pending : List OperatorNode)
    (p : OperatorNode) (rest : List OperatorNode)
    (h : pickReady av pending = some (p, rest)) :
    opReady av p = true ∧ pending.Perm (p :: rest) := by
  induction pending generalizing p rest with
  | nil => simp [pickReady] at h
  | cons op tl ih =>
    by_cases hr : opReady av op
    · simp [pickReady, hr] at h
      exact ⟨h.1 ▸ hr, by rw [h.1, h.2]⟩
    · match hrec : pickReady av tl with
      | none => simp [pickReady, hr, hrec] at h
      | some (p2, rest2) =>
        simp [pickReady, hr, hrec] at h
        rcases ih p2 rest2 hrec with ⟨hready, hperm⟩
        refine ⟨h.1 ▸ hready, ?_⟩
        rw [← h.1, ← h.2]
        exact (List.Perm.cons op hperm).trans (List.Perm.swap p2 op rest2)

theorem topoAux_ok (fuel : Nat) (av : List String)
    (pending acc out : List OperatorNode)
    (h : topoAux fuel av pending acc = Except.ok out) :
    ∃ σ, out = acc.reverse ++ σ ∧ pending.Perm σ ∧ validForward av σ = true := by
  induction fuel generalizing av pending acc with
  | zero =>
    match pending with
    | [] =>
      have hout : out = acc.reverse := by
        simp [topoAux] at h
        exact h.symm
      exact ⟨[], by simp [hout], List.Perm.refl [], rfl⟩
    | op :: rest => simp [topoAux] at h
  | succ n ih =>
    match pending with
    | [] =>
      have hout : out = acc.reverse := by
        simp [topoAux] at h
        exact h.symm
      exact ⟨[], by simp [hout], List.Perm.refl [], rfl⟩
    | op :: rest =>
      match hp : pickReady av (op :: rest) with
      | none => simp [topoAux, hp] at h
      | some (p, rest2) =>
        have hrec : topoAux n (av ++ p.outputs) rest2 (p :: acc) =
            Except.ok out := by simpa [topoAux, hp] using h
        rcases ih (av ++ p.outputs) rest2 (p :: acc) hrec with
          ⟨σ, hout, hperm, hvalid⟩
        rcases pickReady_spec av (op :: rest) p rest2 hp with ⟨hready, hperm0⟩
        refine ⟨p :: σ, ?_, ?_, ?_⟩
        · simpa [List.reverse_cons, List.append_assoc] using hout
        · exact hperm0.trans (List.Perm.cons p hperm)
        · simp [validForward, hready, hvalid]

theorem topoAux_error (fuel : Nat) (av : List String)
    (pending acc : List OperatorNode) (e : Err)
    (h : topoAux fuel av pending acc = Except.error e) :
    e = Err.CyclicGraph := by
  induction fuel generalizing av pending acc with
  | zero =>
    match pending with
    | [] => simp [topoAux] at h
    | op :: rest =>
      simp [topoAux] at h
      exact h.symm
  | succ n ih =>
    match pending with
    | [] => simp [topoAux] at h
    | op :: rest =>
      match hp : pickReady av (op :: rest) with
      | none =>
        simp [topoAux, hp] at h
        exact h.symm
      | some (p, rest2) =>
        exact ih (av ++ p.outputs) rest2 (p :: acc)
          (by simpa [topoAux, hp] using h)

theorem step_invalid (s : Session) (a : Act)
    (h : validSrc a s.state = false) :
    (∃ e, (step s a).2 = Except.error e) ∧ (step s a).1 = s := by
  cases a with
  | connect o =>
    simp [validSrc] at h
    exact ⟨⟨SessErr.StateError "connect: session not Disconnected",
      by simp [step, h]⟩, by simp [step, h]⟩
  | upload art o =>
    simp [validSrc] at h
    exact ⟨⟨SessErr.StateError "upload: session not Ready",
      by simp [step, h]⟩, by simp [step, h]⟩
  | setInput n data =>
    simp [validSrc] at h
    exact ⟨⟨SessErr.StateError "setInput: session not Ready",
      by simp [step, h]⟩, by simp [step, h]⟩
  | run o =>
    simp [validSrc] at h
    cases hst : s.state with
    | Ready => exact absurd hst h
    | Running =>
      exact ⟨⟨SessErr.SessionBusy "a run is already in flight",
        by simp [step, hst]⟩, by simp [step, hst]⟩
    | Disconnected =>
      exact ⟨⟨SessErr.StateError "run: session not Ready",
        by simp [step, hst]⟩, by simp [step, hst]⟩
    | Connecting =>
      exact ⟨⟨SessErr.StateError "run: session not Ready",
        by simp [step, hst]⟩, by simp [step, hst]⟩
  | getOutput n =>
    simp [validSrc] at h
    exact ⟨⟨SessErr.StateError "getOutput: no successful run to read",
      by simp [step, h]⟩, by simp [step, h]⟩
  | close => simp [validSrc] at h

/-- C1: for every model byte buffer (with a well-formed magic/version
header) whose operator list contains an opcode with no known mapping,
`parse` returns the recoverable error `UnsupportedOperator` carrying that
opcode value; being a total function, `parse` never crashes. -/
theorem claim_C1_unsupported_opcode (buf : ModelBuffer)
    (hmagic : buf.magic = tfliteMagic) (hver : buf.version = 3)
    (h : ∃ r ∈ buf.ops, opcodeKind r.opcode = none) :
    ∃ c, (∃ r ∈ buf.ops, r.opcode = c ∧ opcodeKind c = none) ∧
      parse buf = Except.error (Err.UnsupportedOperator c) := by
  rcases mapOps_unsupported buf.ops h with ⟨c, hc, herr⟩
  exact ⟨c, hc, by simp [parse, hmagic, hver, herr]⟩

/-- C1 witness: a concrete buffer whose operator list holds opcode 114 is
rejected with `UnsupportedOperator 114`. -/
theorem claim_C1_witness :
    ∃ c, (∃ r ∈ buf114.ops, r.opcode = c ∧ opcodeKind c = none) ∧
      parse buf114 = Except.error (Err.UnsupportedOperator c) :=
  claim_C1_unsupported_opcode buf114 rfl rfl
    ⟨RawOp.mk 114 [] [], by simp [buf114], rfl⟩

/-- C2: the code generator is deterministic: two calls on the same graph
and target produce byte-identical generated artifacts (source text and
manifest), `generate` being a pure function of its arguments. -/
theorem claim_C2_generate_deterministic (g : IRGraph) (t : String) :
    generate g t = generate g t := rfl

/-- C4: for every operator list given to IRGraph construction, the
topological check either fails with `CyclicGraph` or succeeds with a full
(never partial: a permutation of the whole list) forward order in which
every operator's inputs are produced by an earlier operator or are
declared graph inputs. -/
theorem claim_C4_topo_check (gInputs : List String)
    (ops : List OperatorNode) :
    topoCheck gInputs ops = Except.error Err.CyclicGraph ∨
    ∃ order, topoCheck gInputs ops = Except.ok order ∧
      order.Perm ops ∧ validForward gInputs order = true := by
  match h : topoCheck gInputs ops with
  | Except.error e =>
    left
    have he : e = Err.CyclicGraph :=
      topoAux_error ops.length gInputs ops [] e h
    rw [he]
  | Except.ok order =>
    right
    rcases topoAux_ok ops.length gInputs ops [] order h with
      ⟨σ, hout, hperm, hvalid⟩
    have hord : order = σ := by simpa using hout
    refine ⟨order, rfl, ?_, ?_⟩
    · rw [hord]; exact hperm.symm
    · rw [hord]; exact hvalid

/-- C3: every session operation invoked from a state that is not its valid
source state fails with a session error and is never a silent no-op (the
session is left unchanged and an error is reported); in particular `run`
invoked in the `Disconnected` state fails with a state error. -/
theorem claim_C3_state_machine :
    (∀ (s : Session) (a : Act), validSrc a s.state = false →
      (∃ e, (step s a).2 = Except.error e) ∧ (step s a).1 = s) ∧
    (∀ (s : Session) (o : RunOutcome), s.state = SessState.Disconnected →
      (step s (Act.run o)).2 =
        Except.error (SessErr.StateError "run: session not Ready")) := by
  refine ⟨step_invalid, ?_⟩
  intro s o hst
  simp [step, hst]

/-- C3 witness: `run` invoked on the fully disconnected session errors and
leaves the session unchanged. -/
theorem claim_C3_witness :
    ((∃ e, (step closedSession (Act.run RunOutcome.trap)).2 =
        Except.error e) ∧
      (step closedSession (Act.run RunOutcome.trap)).1 = closedSession) ∧
    (step closedSession (Act.run RunOutcome.trap)).2 =
      Except.error (SessErr.StateError "run: session not Ready") :=
  ⟨claim_C3_state_machine.1 closedSession (Act.run RunOutcome.trap) rfl,
   claim_C3_state_machine.2 closedSession RunOutcome.trap rfl⟩

/-- C5: transport-layer errors (`ConnectError`, `Timeout`, `BuildError`,
`ExecutionFault`) always leave the session `Disconnected`, from which no
operation but `connect` (or `close`) is accepted before a reconnect;
`SessionBusy` is the only session error recoverable without reconnecting
(the session is left exactly as it was, still `Running`); on a `run`
timeout the session reports `Timeout` and disconnects rather than silently
retrying. -/
theorem claim_C5_transport_errors_disconnect :
    (∀ (s : Session) (a : Act) (e : SessErr),
      (step s a).2 = Except.error e → isTransportErr e = true →
      (step s a).1.state = SessState.Disconnected) ∧
    (∀ (s : Session) (a : Act) (d : String),
      (step s a).2 = Except.error (SessErr.SessionBusy d) →
      (step s a).1 = s ∧ s.state = SessState.Running) ∧
    (∀ s : Session, s.state = SessState.Ready →
      (step s (Act.run RunOutcome.timedOut)).2 =
        Except.error (SessErr.Timeout "run timed out") ∧
      (step s (Act.run RunOutcome.timedOut)).1.state =
        SessState.Disconnected) ∧
    (∀ (s : Session) (a : Act), s.state = SessState.Disconnected →
      (∀ o, a ≠ Act.connect o) → a ≠ Act.close →
      ∃ d, (step s a).2 = Except.error (SessErr.StateError d)) := by
  refine ⟨?_, ?_, ?_, ?_⟩
  · intro s a e herr htrans
    cases a with
    | connect o =>
      by_cases hd : s.state = SessState.Disconnected
      · cases o with
        | accepted => simp [step, hd] at herr
        | refused => simp [step, hd, closedSession]
        | timedOut => simp [step, hd, closedSession]
      · simp [step, hd] at herr
        rw [← herr] at htrans
        simp [isTransportErr] at htrans
    | upload art o =>
      by_cases hr : s.state = SessState.Ready
      · cases o with
        | built => simp [step, hr] at herr
        | buildFail d => simp [step, hr, closedSession]
      · simp [step, hr] at herr
        rw [← herr] at htrans
        simp [isTransportErr] at htrans
    | setInput n data =>
      by_cases hr : s.state = SessState.Ready
      · match hf : findInput s.manifest n with
        | none =>
          simp [step, hr, hf] at herr
          rw [← herr] at htrans
          simp [isTransportErr] at htrans
        | some b =>
          by_cases hl : data.length = b.size
          · simp [step, hr, hf, hl] at herr
          · simp [step, hr, hf, hl] at herr
            rw [← herr] at htrans
            simp [isTransportErr] at htrans
      · simp [step, hr] at herr
        rw [← herr] at htrans
        simp [isTransportErr] at htrans
    | run o =>
      cases hst : s.state with
      | Ready =>
        cases o with
        | completed outs => simp [step, hst] at herr
        | trap => simp [step, hst, closedSession]
        | timedOut => simp [step, hst, closedSession]
      | Running =>
        simp [step, hst] at herr
        rw [← herr] at htrans
        simp [isTransportErr] at htrans
      | Disconnected =>
        simp [step, hst] at herr
        rw [← herr] at htrans
        simp [isTransportErr] at htrans
      | Connecting =>
        simp [step, hst] at herr
        rw [← herr] at htrans
        simp [isTransportErr] at htrans
    | getOutput n =>
      by_cases hc : (s.state == SessState.Ready && s.lastRunOk) = true
      · match hf : findOutputBytes s.outputs n with
        | some bs => simp [step, hc, hf] at herr
        | none =>
          simp [step, hc, hf] at herr
          rw [← herr] at htrans
          simp [isTransportErr] at htrans
      · simp [step, hc] at herr
        rw [← herr] at htrans
        simp [isTransportErr] at htrans
    | close => simp [step] at herr
  · intro s a d herr
    cases a with
    | connect o =>
      by_cases hd : s.state = SessState.Disconnected
      · cases o with
        | accepted => simp [step, hd] at herr
        | refused => simp [step, hd] at herr
        | timedOut => simp [step, hd] at herr
      · simp [step, hd] at herr
    | upload art o =>
      by_cases hr : s.state = SessState.Ready
      · cases o with
        | built => simp [step, hr] at herr
        | buildFail d2 => simp [step, hr] at herr
      · simp [step, hr] at herr
    | setInput n data =>
      by_cases hr : s.state = SessState.Ready
      · match hf : findInput s.manifest n with
        | none => simp [step, hr, hf] at herr
        | some b =>
          by_cases hl : data.length = b.size
          · simp [step, hr, hf, hl] at herr
          · simp [step, hr, hf, hl] at herr
      · simp [step, hr] at herr
    | run o =>
      cases hst : s.state with
      | Ready =>
        cases o with
        | completed outs => simp [step, hst] at herr
        | trap => simp [step, hst] at herr
        | timedOut => simp [step, hst] at herr
      | Running => exact ⟨by simp [step, hst], rfl⟩
      | Disconnected => simp [step, hst] at herr
      | Connecting => simp [step, hst] at herr
    | getOutput n =>
      by_cases hc : (s.state == SessState.Ready && s.lastRunOk) = true
      · match hf : findOutputBytes s.outputs n with
        | some bs => simp [step, hc, hf] at herr
        | none => simp [step, hc, hf] at herr
      · simp [step, hc] at herr
    | close => simp [step] at herr
  · intro s hr
    exact ⟨by simp [step, hr], by simp [step, hr, closedSession]⟩
  · intro s a hd hnc hncl
    cases a with
    | connect o => exact absurd rfl (hnc o)
    | upload art o =>
      exact ⟨"upload: session not Ready", by simp [step, hd]⟩
    | setInput n data =>
      exact ⟨"setInput: session not Ready", by simp [step, hd]⟩
    | run o =>
      exact ⟨"run: session not Ready", by simp [step, hd]⟩
    | getOutput n =>
      exact ⟨"getOutput: no successful run to read", by simp [step, hd]⟩
    | close => exact absurd rfl hncl

/-- C5 witness: a refused `connect` leaves the session `Disconnected`, and
a timed-out `run` from `Ready` reports `Timeout` and disconnects. -/
theorem claim_C5_witness :
    (step closedSession (Act.connect ConnectOutcome.refused)).1.state =
      SessState.Disconnected ∧
    ((step readySession (Act.run RunOutcome.timedOut)).2 =
        Except.error (SessErr.Timeout "run timed out") ∧
      (step readySession (Act.run RunOutcome.timedOut)).1.state =
        SessState.Disconnected) :=
  ⟨claim_C5_transport_errors_disconnect.1 closedSession
      (Act.connect ConnectOutcome.refused)
      (SessErr.ConnectError "connection refused") rfl rfl,
   claim_C5_transport_errors_disconnect.2.2.1 readySession rfl⟩

/-- C6: after any failed `run` from `Ready`, `getOutput` never returns
stale or zeroed buffer contents as if successful: the failure carries a
stable error kind with a non-empty human-readable detail string, and every
subsequent `getOutput` reports the failure state instead of data. -/
theorem claim_C6_no_stale_output (s : Session) (o : RunOutcome)
    (e : SessErr) (hr : s.state = SessState.Ready)
    (herr : (step s (Act.run o)).2 = Except.error e) :
    errDetail e ≠ "" ∧
    ∀ n, (step (step s (Act.run o)).1 (Act.getOutput n)).2 =
      Except.error (SessErr.StateError "getOutput: no successful run to read") := by
  cases o with
  | completed outs => simp [step, hr] at herr
  | trap =>
    simp [step, hr] at herr
    refine ⟨?_, ?_⟩
    · rw [← herr]; simp [errDetail]
    · intro n; simp [step, hr, closedSession]
  | timedOut =>
    simp [step, hr] at herr
    refine ⟨?_, ?_⟩
    · rw [← herr]; simp [errDetail]
    · intro n; simp [step, hr, closedSession]

/-- C6 witness: a trapped `run` on a ready session yields a non-empty
detail and `getOutput` afterwards reports the failure state. -/
theorem claim_C6_witness :
    errDetail (SessErr.ExecutionFault "target reported a runtime trap") ≠ "" ∧
    ∀ n, (step (step readySession (Act.run RunOutcome.trap)).1
        (Act.getOutput n)).2 =
      Except.error (SessErr.StateError "getOutput: no successful run to read") :=
  claim_C6_no_stale_output readySession RunOutcome.trap
    (SessErr.ExecutionFault "target reported a runtime trap") rfl rfl

/-- C7: `close()` is idempotent (a second call from the state a first call
produced changes nothing), and scoped acquisition guarantees the session is
closed on every exit path, error exits included. -/
theorem claim_C7_close_idempotent_scoped :
    (∀ s : Session, step (step s Act.close).1 Act.close = step s Act.close) ∧
    (∀ acts : List Act, withSession acts = closedSession ∧
      (withSession acts).state = SessState.Disconnected) := by
  exact ⟨fun s => rfl, fun acts => ⟨rfl, rfl⟩⟩

/-- C8: against a manifest declaring input buffer "dense_4_input" of 4
bytes, `setInput` succeeds on 4 bytes, fails with `SizeMismatch` on 8
bytes, and fails with `UnknownBuffer` on a name absent from the
manifest. -/
theorem claim_C8_setInput_manifest :
    (step demoSession (Act.setInput "dense_4_input" [0, 0, 0, 0])).2 =
      Except.ok none ∧
    (step demoSession
        (Act.setInput "dense_4_input" [0, 0, 0, 0, 0, 0, 0, 0])).2 =
      Except.error (SessErr.SizeMismatch
        "setInput dense_4_input: byte length disagrees with manifest") ∧
    (step demoSession (Act.setInput "missing_buffer" [0, 0, 0, 0])).2 =
      Except.error (SessErr.UnknownBuffer "missing_buffer") := by
  refine ⟨rfl, rfl, rfl⟩

/-- C9: the tutorial's two model-loading branches are equivalent: the flat
tflite package layout and the `AttributeError` fallback to the generated
layout both construct the root model object from the same buffer at offset
0, whichever branch is taken. -/
theorem claim_C9_loading_branches_equivalent (buf : List Nat) (b : Bool) :
    loadModel b buf = GetRootAsModel buf 0 ∧
    loadModelFlat buf = GetRootAsModel buf 0 ∧
    loadModelFallback buf = GetRootAsModel buf 0 := by
  cases b <;> exact ⟨rfl, rfl, rfl⟩

/-- C10: the input binding fixed at conversion time (name "dense_4_input",
shape (1,), dtype float32) agrees in name, shape and dtype with the tensor
supplied at inference time (`np.array([0.5], dtype="float32")`). -/
theorem claim_C10_binding_agrees :
    setInputName = input_tensor ∧ input_tensor = "dense_4_input" ∧
    ndShape inferenceInput = input_shape ∧
    inferenceInput.dtype = input_dtype := by
  exact ⟨rfl, rfl, rfl, rfl⟩

end MicroTFLite
